import Mathlib

/-!
Verification development for the EnergyManagementSystem repository.

Shallow embedding conventions:
* Rust `f64` fields are modelled as `ℚ` (the values of interest are exact
  decimals and the spec's claims about them are exact equalities/signs).
* Rust `i32`/`i64` fields are modelled as `ℤ`; `u8`/`u32`/`u64` as `ℕ`
  (no arithmetic in the modelled code can overflow these widths at the
  inputs the claims range over, and casts `i32 as i64`, `u8 as i64` are
  exact).
* HTTP I/O, the system clock, the system time zone, and foreign library
  parsers (`str::parse`, serde JSON decoding) are modelled as explicit
  parameters of the embedded functions: each embedded function takes the
  outcome of its external calls as an argument and is otherwise a faithful
  translation of the Rust control flow.
* Rust `str` values handed to byte-level operations are modelled as lists
  of UTF-8 byte values (`List ℕ`); `Rust String::len` is the length of
  that list.
-/

namespace EMS

/-! ## Configuration (src/configuration/config.rs) -/

/-- Embedding of `Config` from src/configuration/config.rs. -/
structure Config where
  p1_url : String
  indevolt_url : String
  poll_interval_seconds : ℕ
  battery_rated_capacity_kwh : ℚ
  battery_min_soc_percent : ℚ
  battery_max_soc_percent : ℚ
  battery_max_charge_power_w : ℤ
  battery_max_discharge_power_w : ℤ
  battery_max_desired_grid_peak_w : ℤ
  battery_min_price_spread_percent : ℚ
  battery_round_trip_efficiency : ℚ
  log_level : String

/-- Embedding of `Config::usable_capacity_kwh` (config.rs lines 81-85):
`battery_rated_capacity_kwh * (battery_max_soc_percent - battery_min_soc_percent) / 100.0`. -/
def Config.usable_capacity_kwh (c : Config) : ℚ :=
  c.battery_rated_capacity_kwh
    * (c.battery_max_soc_percent - c.battery_min_soc_percent)
    / 100

/-- Embedding of `Config::default` (config.rs lines 55-77), used as a
concrete configuration value. -/
def defaultConfig : Config where
  p1_url := "http://127.0.0.1/api/v1/data"
  indevolt_url := "http://127.0.0.1"
  poll_interval_seconds := 30
  battery_rated_capacity_kwh := 12
  battery_min_soc_percent := 10
  battery_max_soc_percent := 100
  battery_max_charge_power_w := 2400
  battery_max_discharge_power_w := 2400
  battery_max_desired_grid_peak_w := 3381
  battery_min_price_spread_percent := 25
  battery_round_trip_efficiency := 4/5
  log_level := "Info"

/-! ## Per-key API models (src/models/indevolt_models.rs) -/

/-- Embedding of `WorkingMode` (indevolt_models.rs lines 66-76), the
working modes accepted by the per-key control endpoint. -/
inductive WorkingMode where
  | SelfConsumedPrioritized
  | ChargingFromGrid
  | DischargingToGrid
  | Manual
deriving DecidableEq

/-- Embedding of `WorkingMode::as_api_str` (indevolt_models.rs lines 80-87). -/
def WorkingMode.as_api_str : WorkingMode → String
  | .SelfConsumedPrioritized => "Self-consumed Prioritized"
  | .ChargingFromGrid => "Charging From Grid"
  | .DischargingToGrid => "Discharging To Grid"
  | .Manual => "Manual"

/-- Embedding of `WorkingMode::from_api_str` (indevolt_models.rs lines 90-98). -/
def WorkingMode.from_api_str (s : String) : Option WorkingMode :=
  if s = "Self-consumed Prioritized" then some .SelfConsumedPrioritized
  else if s = "Charging From Grid" then some .ChargingFromGrid
  else if s = "Discharging To Grid" then some .DischargingToGrid
  else if s = "Manual" then some .Manual
  else none

/-! ## Command dispatcher (src/handlers/indevolt/controller.rs) -/

/-- Embedding of `SetDataConfig`, the batched-variant register write payload.
Its definition is referenced by controller.rs but its declaring module is not
part of src/; the shape `f` (function code, u32), `t` (target register, u32),
`v` (values, Vec of i64) is taken from every construction site in
controller.rs (lines 50, 64-68, 76-80, 89). -/
structure SetDataConfig where
  f : ℕ
  t : ℕ
  v : List ℤ
deriving DecidableEq

/-- Register address `REG_WORKING_MODE` (controller.rs line 8). -/
def REG_WORKING_MODE : ℕ := 47005

/-- Register address `REG_CONTROL` (controller.rs line 9). -/
def REG_CONTROL : ℕ := 47015

/-- Modbus function code `FUNC_WRITE` (controller.rs line 10). -/
def FUNC_WRITE : ℕ := 16

/-- Action code `ACTION_STOP` (controller.rs line 13). -/
def ACTION_STOP : ℤ := 0

/-- Action code `ACTION_CHARGE` (controller.rs line 14). -/
def ACTION_CHARGE : ℤ := 1

/-- Action code `ACTION_DISCHARGE` (controller.rs line 15). -/
def ACTION_DISCHARGE : ℤ := 2

/-- Rendering of a Vec of i64 by the Rust derive(Debug) formatter,
as produced by the `{:?}` placeholder. -/
def fmtVec (l : List ℤ) : String :=
  "[" ++ String.intercalate ", " (l.map toString) ++ "]"

/-- Rendering of a SetDataConfig by the Rust derive(Debug) formatter,
as interpolated into the transport-error message by `{:?}` in
controller.rs line 30. -/
def fmtSetDataConfig (c : SetDataConfig) : String :=
  "SetDataConfig \x7b f: " ++ toString c.f ++ ", t: " ++ toString c.t
    ++ ", v: " ++ fmtVec c.v ++ " \x7d"

/-- Outcome of one HTTP exchange, the external-world parameter of the
embedded dispatcher: either the transport failed with an error text, or a
response with a status code and a body arrived. -/
inductive HttpOutcome where
  | transportErr (e : String)
  | response (status : ℕ) (body : String)

/-- Embedding of `reqwest::StatusCode::is_success`: status in 200..=299. -/
def statusIsSuccess (s : ℕ) : Bool :=
  200 ≤ s && s < 300

/-- Embedding of `send_command` (controller.rs lines 20-40), parameterised
by the outcome of the HTTP exchange. JSON serialisation of SetDataConfig
(line 22) cannot fail for this type, so that error branch is unreachable
and not modelled. -/
def send_command (cfg : SetDataConfig) (outcome : HttpOutcome) : Except String Unit :=
  match outcome with
  | .transportErr e =>
      .error ("[Indevolt] HTTP error sending SetData " ++ fmtSetDataConfig cfg ++ ": " ++ e)
  | .response status body =>
      if statusIsSuccess status then
        .ok ()
      else
        .error ("[Indevolt] SetData rejected (HTTP " ++ toString status ++ "): " ++ body)

/-- Register command built by `charge` (controller.rs lines 64-68). -/
def chargeCmd (watts : ℤ) (max_soc_percent : ℕ) : SetDataConfig :=
  { f := FUNC_WRITE, t := REG_CONTROL,
    v := [ACTION_CHARGE, watts, (max_soc_percent : ℤ)] }

/-- Embedding of `charge` (controller.rs lines 62-71). -/
def charge (watts : ℤ) (max_soc_percent : ℕ) (outcome : HttpOutcome) : Except String Unit :=
  send_command (chargeCmd watts max_soc_percent) outcome

/-- Register command built by `discharge` (controller.rs lines 76-80). -/
def dischargeCmd (watts : ℤ) (min_soc_percent : ℕ) : SetDataConfig :=
  { f := FUNC_WRITE, t := REG_CONTROL,
    v := [ACTION_DISCHARGE, watts, (min_soc_percent : ℤ)] }

/-- Embedding of `discharge` (controller.rs lines 74-83). -/
def discharge (watts : ℤ) (min_soc_percent : ℕ) (outcome : HttpOutcome) : Except String Unit :=
  send_command (dischargeCmd watts min_soc_percent) outcome

/-- Embedding of the legacy stub `set_charge_power` (controller.rs
lines 101-103): delegates to `charge(base_url, watts, 100)`. -/
def set_charge_power (watts : ℤ) (outcome : HttpOutcome) : Except String Unit :=
  charge watts 100 outcome

/-- Embedding of the legacy stub `set_discharge_power` (controller.rs
lines 105-107): delegates to `discharge(base_url, watts, 10)`. -/
def set_discharge_power (watts : ℤ) (outcome : HttpOutcome) : Except String Unit :=
  discharge watts 10 outcome

/-! ## Per-key inverter reader (src/handlers/indevolt/reader.rs) -/

/-- Embedding of `SensorReading` (indevolt_models.rs lines 19-24), the
response of GET /device/sensor?key=KEY. -/
structure SensorReading where
  key : String
  value : String
  unit : Option String
deriving DecidableEq

/-- Embedding of `BatterySnapshot` (indevolt_models.rs lines 30-50). -/
structure BatterySnapshot where
  device_model : String
  battery_soc : ℚ
  battery_state : String
  working_mode : String
  battery_power_w : ℤ
  dc_input_power1_w : ℤ
  dc_input_power2_w : ℤ
  total_dc_output_power_w : ℤ
  total_ac_output_power_w : ℤ
  total_ac_input_power_w : ℤ
  meter_power_w : ℤ
  daily_production_kwh : ℚ
  cumulative_production_kwh : ℚ
  daily_charging_kwh : ℚ
  daily_discharging_kwh : ℚ
  total_charging_kwh : ℚ
  total_discharging_kwh : ℚ
  total_ac_input_energy_kwh : ℚ
deriving DecidableEq

/-- Embedding of `SNAPSHOT_KEYS` (reader.rs lines 34-41), in source order. -/
def SNAPSHOT_KEYS : List String :=
  ["BatterySOC", "BatteryState", "WorkingMode",
   "BatteryPower", "DCInputPower1", "DCInputPower2",
   "TotalDCOutputPower", "TotalACOutputPower", "TotalACInputPower",
   "MeterPower", "DailyProduction", "CumulativeProduction",
   "DailyCharging", "DailyDischarging",
   "TotalCharging", "TotalDischarging", "TotalACInputEnergy"]

/-- Lookup in the association list built by collecting (key, value) pairs
into a HashMap (reader.rs lines 95-99): on duplicate keys the last
insertion wins, hence the search over the reversed list. -/
def hashMapGet (entries : List (String × String)) (k : String) : Option String :=
  (entries.reverse.find? (fun p => p.1 == k)).map (fun p => p.2)

/-- Embedding of `read_battery_snapshot` (reader.rs lines 83-135).
The HTTP layer is the parameter `outcome`: for each requested key it gives
the result of `fetch_sensor` (reader.rs lines 51-77), which is `none` when
the HTTP call fails, returns a non-success status, or the body does not
parse, and `some reading` otherwise. The foreign numeric parsers
`str::parse::of f64 / i32` (used with `.ok()`, so parse failures become
`none`) are the parameters `pf64` and `pi32`. The function is total: it
always returns a fully populated BatterySnapshot. -/
def read_battery_snapshot (pf64 : String → Option ℚ) (pi32 : String → Option ℤ)
    (outcome : String → Option SensorReading) (device_model : String) : BatterySnapshot :=
  let readings := (SNAPSHOT_KEYS.filterMap outcome).map (fun r => (r.key, r.value))
  let parse_f64 := fun k => ((hashMapGet readings k).bind pf64).getD 0
  let parse_i32 := fun k => ((hashMapGet readings k).bind pi32).getD 0
  let parse_str := fun k => (hashMapGet readings k).getD ""
  { device_model := device_model
    battery_soc := parse_f64 "BatterySOC"
    battery_state := parse_str "BatteryState"
    working_mode := parse_str "WorkingMode"
    battery_power_w := parse_i32 "BatteryPower"
    dc_input_power1_w := parse_i32 "DCInputPower1"
    dc_input_power2_w := parse_i32 "DCInputPower2"
    total_dc_output_power_w := parse_i32 "TotalDCOutputPower"
    total_ac_output_power_w := parse_i32 "TotalACOutputPower"
    total_ac_input_power_w := parse_i32 "TotalACInputPower"
    meter_power_w := parse_i32 "MeterPower"
    daily_production_kwh := parse_f64 "DailyProduction"
    cumulative_production_kwh := parse_f64 "CumulativeProduction"
    daily_charging_kwh := parse_f64 "DailyCharging"
    daily_discharging_kwh := parse_f64 "DailyDischarging"
    total_charging_kwh := parse_f64 "TotalCharging"
    total_discharging_kwh := parse_f64 "TotalDischarging"
    total_ac_input_energy_kwh := parse_f64 "TotalACInputEnergy" }

/-! ## P1 models (src/models/p1_models.rs) -/

/-- Embedding of `ExternalMeasurement` (p1_models.rs lines 43-51). -/
structure ExternalMeasurement where
  unique_id : String
  type : String
  timestamp : String
  value : ℚ
  unit : String
deriving DecidableEq

/-- Embedding of `P1Data` (p1_models.rs lines 57-91). -/
structure P1Data where
  wifi_ssid : String
  wifi_strength : ℕ
  smr_version : ℕ
  meter_model : String
  unique_id : String
  active_tariff : ℕ
  total_power_import_kwh : ℚ
  total_power_import_t1_kwh : ℚ
  total_power_import_t2_kwh : ℚ
  total_power_export_kwh : ℚ
  total_power_export_t1_kwh : ℚ
  total_power_export_t2_kwh : ℚ
  active_power_w : ℚ
  active_power_l1_w : ℚ
  active_power_l2_w : ℚ
  active_power_l3_w : ℚ
  active_voltage_l1_v : ℚ
  active_voltage_l2_v : ℚ
  active_voltage_l3_v : ℚ
  active_current_a : ℚ
  active_current_l1_a : ℚ
  active_current_l2_a : ℚ
  active_current_l3_a : ℚ
  active_power_average_w : ℚ
  montly_power_peak_w : ℚ
  montly_power_peak_timestamp : String
  total_gas_m3 : ℚ
  gas_timestamp : String
  gas_unique_id : String
  external : List ExternalMeasurement
deriving DecidableEq

/-! ## P1 timestamp parsing (src/handlers/p1/reader.rs lines 10-37) -/

/-- Civil (naive local) date-time, the value `NaiveDateTime::parse_from_str`
produces from the formatted string. -/
structure CivilDateTime where
  year : ℕ
  month : ℕ
  day : ℕ
  hour : ℕ
  minute : ℕ
  second : ℕ
deriving DecidableEq

/-- Gregorian leap-year rule, as used by chrono date validation. -/
def isLeapYear (y : ℕ) : Bool :=
  (y % 4 == 0 && y % 100 != 0) || y % 400 == 0

/-- Days in a month, as used by chrono date validation. -/
def daysInMonth (y m : ℕ) : ℕ :=
  if m = 2 then (if isLeapYear y then 29 else 28)
  else if m = 4 ∨ m = 6 ∨ m = 9 ∨ m = 11 then 30
  else 31

/-- Validity of a civil date-time under chrono's `%Y-%m-%d %H:%M:%S`
parsing (second 60 admitted as a leap second). -/
def validCivil (c : CivilDateTime) : Bool :=
  1 ≤ c.month && c.month ≤ 12 && 1 ≤ c.day && c.day ≤ daysInMonth c.year c.month
    && c.hour ≤ 23 && c.minute ≤ 59 && c.second ≤ 60

/-- UTF-8 encoding of one character, byte values as naturals. -/
def utf8Bytes (c : Char) : List ℕ :=
  let n := c.toNat
  if n < 128 then [n]
  else if n < 2048 then [192 + n / 64, 128 + n % 64]
  else if n < 65536 then [224 + n / 4096, 128 + (n / 64) % 64, 128 + n % 64]
  else [240 + n / 262144, 128 + (n / 4096) % 64, 128 + (n / 64) % 64, 128 + n % 64]

/-- The UTF-8 bytes of a string: the representation on which Rust `str`
length and slicing operate. -/
def strBytes (s : String) : List ℕ :=
  s.toList.flatMap utf8Bytes

/-- A byte index into a valid UTF-8 string is a char boundary iff the byte
at it is not a continuation byte; Rust `&s[a..b]` panics when `a` or `b`
is not a char boundary. -/
def isCharBoundary (b : ℕ) : Bool :=
  b < 128 || 192 ≤ b

/-- Decimal digit value of an ASCII byte, `none` for a non-digit:
models what `NaiveDateTime::parse_from_str` accepts for each two-digit
field of the format `%Y-%m-%d %H:%M:%S` applied to the string rebuilt at
reader.rs lines 15-23. -/
def digitVal (b : ℕ) : Option ℕ :=
  if 48 ≤ b ∧ b ≤ 57 then some (b - 48) else none

/-- Two-digit field value from two ASCII bytes. -/
def parseTwo (b0 b1 : ℕ) : Option ℕ :=
  match digitVal b0, digitVal b1 with
  | some x, some y => some (10 * x + y)
  | _, _ => none

/-- Embedding of `parse_p1_timestamp` (p1/reader.rs lines 10-37) on the
UTF-8 bytes of its argument. The fixed civil zone (`chrono::Local` with
`.single()`) is the parameter `zone`: it maps a civil date-time to its
unique absolute instant (modelled as ℤ), or `none` when the mapping is
ambiguous. The outer Option is the panic marker: `none` means the Rust
code panics, which happens exactly when the byte length is 12 but one of
the slice offsets 2,4,6,8,10 falls inside a multi-byte character
(reader.rs lines 15-23 slice at byte indices without a boundary check). -/
def parse_p1_timestamp (zone : CivilDateTime → Option ℤ) (ts : List ℕ) :
    Option (Except String ℤ) :=
  if ts.length ≠ 12 then
    some (.error "Invalid P1 timestamp length (expected 12)")
  else if ¬ ([2, 4, 6, 8, 10].all fun i => isCharBoundary (ts.getD i 0)) then
    none
  else
    match parseTwo (ts.getD 0 0) (ts.getD 1 0), parseTwo (ts.getD 2 0) (ts.getD 3 0),
          parseTwo (ts.getD 4 0) (ts.getD 5 0), parseTwo (ts.getD 6 0) (ts.getD 7 0),
          parseTwo (ts.getD 8 0) (ts.getD 9 0), parseTwo (ts.getD 10 0) (ts.getD 11 0) with
    | some yy, some mo, some dd, some hh, some mi, some ss =>
      let civil : CivilDateTime :=
        { year := 2000 + yy, month := mo, day := dd, hour := hh, minute := mi, second := ss }
      if validCivil civil then
        match zone civil with
        | some t => some (.ok t)
        | none => some (.error "Ambiguous local to UTC conversion")
      else some (.error "Cannot parse timestamp")
    | _, _, _, _, _, _ => some (.error "Cannot parse timestamp")

/-! ## P1 reader (src/handlers/p1/reader.rs lines 41-91) -/

/-- Log levels of the leveled log sink. -/
inductive LogLevel where
  | error
  | warn
  | info
  | debug
deriving DecidableEq

/-- Embedding of `P1Reading` (p1/reader.rs lines 42-47). -/
structure P1Reading where
  raw : P1Data
  monthly_power_peak_timestamp_utc : ℤ
  gas_timestamp_utc : ℤ
deriving DecidableEq

/-- Embedding of `read_p1` (p1/reader.rs lines 53-91). The HTTP fetch
(`fetch_p1_data`) outcome is the parameter `fetchResult`, serde JSON
decoding (`P1Data::from_json`) is the parameter `decode`, the system
clock (`Utc::now()`) is `now`, and the civil zone is `zone`. The result
pairs the returned value with the levels of the log records emitted; the
outer Option is the panic marker propagated from `parse_p1_timestamp`. -/
def read_p1 (fetchResult : Except String String)
    (decode : String → Except String P1Data)
    (zone : CivilDateTime → Option ℤ) (now : ℤ) :
    Option (Option P1Reading × List LogLevel) :=
  match fetchResult with
  | .error _ => some (none, [LogLevel.error])
  | .ok json =>
    match decode json with
    | .error _ => some (none, [LogLevel.error])
    | .ok raw =>
      match parse_p1_timestamp zone (strBytes raw.montly_power_peak_timestamp) with
      | none => none
      | some mres =>
        let m := match mres with
          | .ok ts => (ts, ([] : List LogLevel))
          | .error _ => (now, [LogLevel.warn])
        match parse_p1_timestamp zone (strBytes raw.gas_timestamp) with
        | none => none
        | some gres =>
          let g := match gres with
            | .ok ts => (ts, ([] : List LogLevel))
            | .error _ => (now, [LogLevel.warn])
          some (some { raw := raw,
                       monthly_power_peak_timestamp_utc := m.1,
                       gas_timestamp_utc := g.1 },
                m.2 ++ g.2)

/-! ## Main loop (src/main.rs lines 46-131) -/

/-- Outcome of the sleep step at the end of one cycle. -/
inductive SleepAction where
  | sleepFor (d : ℕ)
  | skipOverrun
deriving DecidableEq

/-- Embedding of the sleep step (main.rs lines 120-130): if the elapsed
cycle time is below the interval, sleep for the remainder; otherwise skip
sleeping (the overrun branch). Durations are in nanoseconds (the
resolution of std::time::Duration); the decision uses only the current
cycle's elapsed time, so no sleep debt can be carried over. -/
def sleep_step (elapsed interval : ℕ) : SleepAction :=
  if elapsed < interval then .sleepFor (interval - elapsed) else .skipOverrun

/-- One observable action of a loop cycle, in execution order. -/
inductive CycleAction where
  | fetchMeter
  | fetchBattery
  | logMsg (lvl : LogLevel)
  | reconcileLog (p1w invw diffw : ℤ)
  | degradedLog
  | sleepFor (d : ℕ)
deriving DecidableEq

/-- Truncation toward zero, the semantics of the Rust cast
`f64 as i32` applied at main.rs line 99 (saturation and NaN cases aside,
which no claim exercises). -/
def f64_as_i32 (q : ℚ) : ℤ :=
  if 0 ≤ q then ⌊q⌋ else -⌊-q⌋

/-- Embedding of one iteration of the main loop (main.rs lines 46-131) as
the list of its observable actions, with the two fetch results passed in:
read the meter (line 50), read the battery (line 53) unconditionally,
log the per-source telemetry (lines 56-95: two debug records when a P1
reading is present, else one warning; then three battery debug records),
emit the reconciliation record computing the meter/inverter power diff
when the P1 reading is present, else the degraded-cycle warning
(lines 98-112), then perform the sleep step (lines 120-130: an info log
and a sleep when under the interval, a warning and no sleep on overrun). -/
def run_cycle (p1 : Option P1Reading) (battery : BatterySnapshot)
    (elapsed interval : ℕ) : List CycleAction :=
  [CycleAction.fetchMeter, CycleAction.fetchBattery]
  ++ (match p1 with
      | some _ => [CycleAction.logMsg .debug, CycleAction.logMsg .debug]
      | none => [CycleAction.logMsg .warn])
  ++ [CycleAction.logMsg .debug, CycleAction.logMsg .debug, CycleAction.logMsg .debug]
  ++ (match p1 with
      | some reading =>
        let p1w := f64_as_i32 reading.raw.active_power_w
        let invw := battery.meter_power_w
        [CycleAction.reconcileLog p1w invw (p1w - invw)]
      | none => [CycleAction.degradedLog])
  ++ (match sleep_step elapsed interval with
      | .sleepFor d => [CycleAction.logMsg .info, CycleAction.sleepFor d]
      | .skipOverrun => [CycleAction.logMsg .warn])

/-- One full cycle including the meter read: the meter portion of the
cycle is the first component of `read_p1`; a panic there (outer `none`)
aborts the cycle, otherwise the cycle runs to completion. -/
def cycle (fetchResult : Except String String)
    (decode : String → Except String P1Data)
    (zone : CivilDateTime → Option ℤ) (now : ℤ)
    (battery : BatterySnapshot) (elapsed interval : ℕ) : Option (List CycleAction) :=
  match read_p1 fetchResult decode zone now with
  | none => none
  | some (p1, _) => some (run_cycle p1 battery elapsed interval)

/-- A concrete P1 document with the two compact timestamp fields given as
parameters, used to evaluate the embedded reader on specific meter
documents. -/
def sampleP1Doc (monthlyTs gasTs : String) : P1Data where
  wifi_ssid := "ssid"
  wifi_strength := 62
  smr_version := 50
  meter_model := "ISKRA"
  unique_id := "uid"
  active_tariff := 2
  total_power_import_kwh := 1000
  total_power_import_t1_kwh := 600
  total_power_import_t2_kwh := 400
  total_power_export_kwh := 500
  total_power_export_t1_kwh := 300
  total_power_export_t2_kwh := 200
  active_power_w := 1234
  active_power_l1_w := 400
  active_power_l2_w := 400
  active_power_l3_w := 434
  active_voltage_l1_v := 230
  active_voltage_l2_v := 231
  active_voltage_l3_v := 229
  active_current_a := 5
  active_current_l1_a := 2
  active_current_l2_a := 2
  active_current_l3_a := 1
  active_power_average_w := 900
  montly_power_peak_w := 2500
  montly_power_peak_timestamp := monthlyTs
  total_gas_m3 := 700
  gas_timestamp := gasTs
  gas_unique_id := "gid"
  external := []

/-! ## Batched-variant decoders -/

/-- Modelled from the spec: the batched numeric-ID adapter variant and its
battery-state integer-code decoder are not present under src/ (only the
per-key adapter is); the spec describes the decode table as state codes
1000/1001/1002 mapping to Static/Charging/Discharging and any other
integer code c mapping to the label Unknown(c). -/
def decode_battery_state (code : ℤ) : String :=
  if code = 1000 then "Static"
  else if code = 1001 then "Charging"
  else if code = 1002 then "Discharging"
  else "Unknown(" ++ toString code ++ ")"

end EMS

/-- C2: for every Config, usable_capacity_kwh equals
rated * (max_soc - min_soc) / 100; with rated capacity 12.0, min SOC 10 and
max SOC 100 it returns exactly 10.8; and whenever min SOC exceeds max SOC
with positive rated capacity the result is negative. -/
theorem C2_usable_capacity (c : EMS.Config) :
    c.usable_capacity_kwh
      = c.battery_rated_capacity_kwh
          * (c.battery_max_soc_percent - c.battery_min_soc_percent) / 100
    ∧ (c.battery_rated_capacity_kwh = 12 → c.battery_min_soc_percent = 10 →
        c.battery_max_soc_percent = 100 → c.usable_capacity_kwh = 10.8)
    ∧ (c.battery_max_soc_percent < c.battery_min_soc_percent →
        0 < c.battery_rated_capacity_kwh → c.usable_capacity_kwh < 0) := by
  refine ⟨rfl, ?_, ?_⟩
  · intro hr hmin hmax
    simp [EMS.Config.usable_capacity_kwh, hr, hmin, hmax]
    norm_num
  · intro hlt hpos
    have hneg : c.battery_max_soc_percent - c.battery_min_soc_percent < 0 := by linarith
    have : c.battery_rated_capacity_kwh
        * (c.battery_max_soc_percent - c.battery_min_soc_percent) < 0 :=
      mul_neg_of_pos_of_neg hpos hneg
    simpa [EMS.Config.usable_capacity_kwh] using div_neg_of_neg_of_pos this (by norm_num)

/-- C2 witness: the theorem applied at the default configuration (usable
capacity 10.8) and at a configuration with min SOC above max SOC (negative
usable capacity). -/
theorem C2_usable_capacity_witness :
    EMS.defaultConfig.usable_capacity_kwh = 10.8
    ∧ { EMS.defaultConfig with
          battery_min_soc_percent := 90,
          battery_max_soc_percent := 20 : EMS.Config }.usable_capacity_kwh < 0 :=
  ⟨(C2_usable_capacity EMS.defaultConfig).2.1 rfl rfl rfl,
   (C2_usable_capacity _).2.2 (by norm_num [EMS.defaultConfig]) (by norm_num [EMS.defaultConfig])⟩

/-- C9: for every WorkingMode variant of the per-key API model, decoding
is a left inverse of encoding: from_api_str (as_api_str m) = some m. -/
theorem C9_working_mode_roundtrip (m : EMS.WorkingMode) :
    EMS.WorkingMode.from_api_str m.as_api_str = some m := by
  cases m <;> rfl

/-- C6: the batched-variant battery-state decoder maps 1000 to Static,
1001 to Charging, 1002 to Discharging, and every other integer code c to
the label Unknown(c). -/
theorem C6_battery_state_decode :
    EMS.decode_battery_state 1000 = "Static"
    ∧ EMS.decode_battery_state 1001 = "Charging"
    ∧ EMS.decode_battery_state 1002 = "Discharging"
    ∧ ∀ c : ℤ, c ≠ 1000 → c ≠ 1001 → c ≠ 1002 →
        EMS.decode_battery_state c = "Unknown(" ++ toString c ++ ")" := by
  refine ⟨rfl, rfl, rfl, ?_⟩
  intro c h0 h1 h2
  simp [EMS.decode_battery_state, h0, h1, h2]

/-- C6 witness: the decoder applied at the unrecognised code 7 yields the
label Unknown(7). -/
theorem C6_battery_state_decode_witness :
    EMS.decode_battery_state 7 = "Unknown(7)" :=
  C6_battery_state_decode.2.2.2 7 (by decide) (by decide) (by decide)

/-- C8 counterexample: the claim says every error result is annotated with
the offending command, but two distinct commands rejected with the same
non-success status and body produce the identical error value, so the
rejection error cannot identify the offending command. -/
theorem C8_counterexample :
    EMS.send_command { f := 16, t := 47015, v := [1, 500, 100] }
        (.response 500 "boom")
      = EMS.send_command { f := 16, t := 47005, v := [4] }
        (.response 500 "boom")
    ∧ ({ f := 16, t := 47015, v := [1, 500, 100] } : EMS.SetDataConfig)
        ≠ { f := 16, t := 47005, v := [4] } := by
  constructor
  · rfl
  · decide

/-- C8 amended: the dispatcher classifies any success status as Ok; a
non-success status yields an Err carrying the status and the response
body (but not the command); a transport failure yields an Err carrying
the transport error text annotated with the offending command. -/
theorem C8_send_command_classification (cfg : EMS.SetDataConfig)
    (status : ℕ) (body e : String) :
    (EMS.statusIsSuccess status = true →
      EMS.send_command cfg (.response status body) = .ok ())
    ∧ (EMS.statusIsSuccess status = false →
      EMS.send_command cfg (.response status body)
        = .error ("[Indevolt] SetData rejected (HTTP " ++ toString status ++ "): " ++ body))
    ∧ EMS.send_command cfg (.transportErr e)
        = .error ("[Indevolt] HTTP error sending SetData "
            ++ EMS.fmtSetDataConfig cfg ++ ": " ++ e) := by
  refine ⟨fun h => ?_, fun h => ?_, rfl⟩
  · simp [EMS.send_command, h]
  · simp [EMS.send_command, h]

/-- C8 witness: the classification theorem applied at a success response
(status 200), a rejected response (status 500), and a transport failure,
for one concrete command. -/
theorem C8_send_command_classification_witness :
    EMS.send_command { f := 16, t := 47015, v := [0, 0, 0] } (.response 200 "ok")
      = .ok ()
    ∧ EMS.send_command { f := 16, t := 47015, v := [0, 0, 0] } (.response 500 "boom")
      = .error "[Indevolt] SetData rejected (HTTP 500): boom"
    ∧ EMS.send_command { f := 16, t := 47015, v := [0, 0, 0] } (.transportErr "timeout")
      = .error "[Indevolt] HTTP error sending SetData SetDataConfig \x7b f: 16, t: 47015, v: [0, 0, 0] \x7d: timeout" :=
  ⟨(C8_send_command_classification _ 200 "ok" "timeout").1 rfl,
   by
    have h := (C8_send_command_classification
      { f := 16, t := 47015, v := [0, 0, 0] } 500 "boom" "timeout").2.1 rfl
    simpa using h,
   by
    have h := (C8_send_command_classification
      { f := 16, t := 47015, v := [0, 0, 0] } 500 "boom" "timeout").2.2
    simpa [EMS.fmtSetDataConfig, EMS.fmtVec] using h⟩

/-- C10: the legacy stub set_charge_power(watts) is behaviourally identical
to charge(watts, 100), and set_discharge_power(watts) to
discharge(watts, 10): each issues the same single HTTP write with the same
encoded register command and returns the same result. -/
theorem C10_legacy_stub_equivalence (watts : ℤ) (outcome : EMS.HttpOutcome) :
    EMS.set_charge_power watts outcome = EMS.charge watts 100 outcome
    ∧ EMS.set_discharge_power watts outcome = EMS.discharge watts 10 outcome
    ∧ EMS.chargeCmd watts 100
        = { f := 16, t := 47015, v := [1, watts, 100] }
    ∧ EMS.dischargeCmd watts 10
        = { f := 16, t := 47015, v := [2, watts, 10] } :=
  ⟨rfl, rfl, rfl, rfl⟩

/-- C1: read_battery_snapshot is total (it returns a fully populated
BatterySnapshot by its type) and per-key failures are isolated: for any
per-key outcomes in which the fetch for BatterySOC fails while every
other key succeeds with its own response (value function v, unit
function u), the snapshot has battery_soc = 0 and every other field holds
the parse-or-default decoding of its own key's response value. -/
theorem C1_soc_failure_isolation (pf64 : String → Option ℚ) (pi32 : String → Option ℤ)
    (v : String → String) (u : String → Option (Option String)) (dm : String) :
    EMS.read_battery_snapshot pf64 pi32
      (fun k => if k = "BatterySOC" then none
                else some { key := k, value := v k, unit := (u k).getD none }) dm
      = { device_model := dm
          battery_soc := 0
          battery_state := v "BatteryState"
          working_mode := v "WorkingMode"
          battery_power_w := (pi32 (v "BatteryPower")).getD 0
          dc_input_power1_w := (pi32 (v "DCInputPower1")).getD 0
          dc_input_power2_w := (pi32 (v "DCInputPower2")).getD 0
          total_dc_output_power_w := (pi32 (v "TotalDCOutputPower")).getD 0
          total_ac_output_power_w := (pi32 (v "TotalACOutputPower")).getD 0
          total_ac_input_power_w := (pi32 (v "TotalACInputPower")).getD 0
          meter_power_w := (pi32 (v "MeterPower")).getD 0
          daily_production_kwh := (pf64 (v "DailyProduction")).getD 0
          cumulative_production_kwh := (pf64 (v "CumulativeProduction")).getD 0
          daily_charging_kwh := (pf64 (v "DailyCharging")).getD 0
          daily_discharging_kwh := (pf64 (v "DailyDischarging")).getD 0
          total_charging_kwh := (pf64 (v "TotalCharging")).getD 0
          total_discharging_kwh := (pf64 (v "TotalDischarging")).getD 0
          total_ac_input_energy_kwh := (pf64 (v "TotalACInputEnergy")).getD 0 } := by
  rfl

/-- C3: in the sleep step, if the elapsed cycle time is below the
configured interval the loop sleeps exactly the remainder, and if the
elapsed time reaches or exceeds the interval the loop performs no sleep
(the overrun branch); the decision is a pure function of the current
cycle's elapsed time and the interval, so no sleep debt is carried
over. -/
theorem C3_sleep_step (elapsed interval : ℕ) :
    (elapsed < interval →
      EMS.sleep_step elapsed interval = .sleepFor (interval - elapsed))
    ∧ (interval ≤ elapsed →
      EMS.sleep_step elapsed interval = .skipOverrun) := by
  constructor
  · intro h
    simp [EMS.sleep_step, h]
  · intro h
    simp [EMS.sleep_step, Nat.not_lt.mpr h]

/-- C3 witness: with a 30-second interval, a cycle elapsed time of 5
seconds sleeps the remaining 25 seconds, and an elapsed time of 35
seconds skips the sleep (durations in seconds for readability; the
statement is unit-independent). -/
theorem C3_sleep_step_witness :
    EMS.sleep_step 5 30 = .sleepFor 25 ∧ EMS.sleep_step 35 30 = .skipOverrun :=
  ⟨by simpa using (C3_sleep_step 5 30).1 (by decide),
   (C3_sleep_step 35 30).2 (by decide)⟩

/-- C4: parse_p1_timestamp returns a failure value and never panics
whenever the byte length of the input differs from 12, and on the valid
compact string 231231235959, interpreted in the civil zone, it returns
the absolute instant the zone assigns to 2023-12-31 23:59:59. -/
theorem C4_parse_p1_timestamp (zone : EMS.CivilDateTime → Option ℤ) (ts : List ℕ) :
    (ts.length ≠ 12 →
      EMS.parse_p1_timestamp zone ts
        = some (.error "Invalid P1 timestamp length (expected 12)"))
    ∧ (∀ t, zone { year := 2023, month := 12, day := 31,
                   hour := 23, minute := 59, second := 59 } = some t →
        EMS.parse_p1_timestamp zone (EMS.strBytes "231231235959") = some (.ok t)) := by
  constructor
  · intro h
    simp [EMS.parse_p1_timestamp, h]
  · intro t ht
    have hb : EMS.strBytes "231231235959"
        = [50, 51, 49, 50, 51, 49, 50, 51, 53, 57, 53, 57] := by rfl
    rw [hb]
    simp [EMS.parse_p1_timestamp, EMS.isCharBoundary, EMS.parseTwo, EMS.digitVal,
      EMS.validCivil, EMS.daysInMonth, EMS.isLeapYear, ht]

/-- C4 witness: the theorem applied with a concrete zone mapping every
civil time to the instant 1703977199, at the empty byte string (length
0, failure value) and at the valid compact string (instant returned). -/
theorem C4_parse_p1_timestamp_witness :
    EMS.parse_p1_timestamp (fun _ => some 1703977199) []
      = some (.error "Invalid P1 timestamp length (expected 12)")
    ∧ EMS.parse_p1_timestamp (fun _ => some 1703977199)
        (EMS.strBytes "231231235959") = some (.ok 1703977199) :=
  ⟨(C4_parse_p1_timestamp (fun _ => some 1703977199) []).1 (by decide),
   (C4_parse_p1_timestamp (fun _ => some 1703977199) []).2 1703977199 rfl⟩

/-- C5: for a decoded document whose monthly-peak timestamp is the
malformed ASCII string oops and whose gas timestamp is valid, the claimed
policy holds: the reading is returned (some), the wall-clock time is
substituted for the malformed field only (the gas field keeps its parsed
instant) and one warning-level record, no error-level record, is emitted.
But for a decoded document whose monthly-peak timestamp has 12 UTF-8
bytes spanning multi-byte characters (four euro signs), the Rust code
panics at the byte slice and no reading is returned at all, contradicting
the claim for that input: the panic marker (outer none) is reached. -/
theorem C5_timestamp_fallback_and_panic (zone : EMS.CivilDateTime → Option ℤ)
    (now : ℤ) (json : String) :
    (∀ t, zone { year := 2023, month := 12, day := 31,
                 hour := 23, minute := 59, second := 59 } = some t →
      EMS.read_p1 (.ok json) (fun _ => .ok (EMS.sampleP1Doc "oops" "231231235959"))
          zone now
        = some (some { raw := EMS.sampleP1Doc "oops" "231231235959",
                       monthly_power_peak_timestamp_utc := now,
                       gas_timestamp_utc := t },
                [EMS.LogLevel.warn]))
    ∧ EMS.read_p1 (.ok json) (fun _ => .ok (EMS.sampleP1Doc "€€€€" "231231235959"))
        zone now = none := by
  constructor
  · intro t ht
    have hb : EMS.strBytes "231231235959"
        = [50, 51, 49, 50, 51, 49, 50, 51, 53, 57, 53, 57] := by rfl
    simp only [EMS.read_p1, hb]
    simp [EMS.parse_p1_timestamp, EMS.strBytes, EMS.utf8Bytes, EMS.isCharBoundary,
      EMS.parseTwo, EMS.digitVal, EMS.validCivil, EMS.daysInMonth, EMS.isLeapYear,
      EMS.sampleP1Doc, ht]
  · rfl

/-- C5 witness: the fallback half of the theorem applied at a concrete
zone sending every civil time to the instant 7, with wall-clock 99. -/
theorem C5_timestamp_fallback_and_panic_witness :
    EMS.read_p1 (.ok "body") (fun _ => .ok (EMS.sampleP1Doc "oops" "231231235959"))
        (fun _ => some 7) 99
      = some (some { raw := EMS.sampleP1Doc "oops" "231231235959",
                     monthly_power_peak_timestamp_utc := 99,
                     gas_timestamp_utc := 7 },
              [EMS.LogLevel.warn]) :=
  (C5_timestamp_fallback_and_panic (fun _ => some 7) 99 "body").1 7 rfl

/-- C7: a meter-fetch failure never aborts the cycle: with a transport
failure, and likewise with a decode failure, the meter reading is marked
absent (none) and the cycle still runs to completion; the battery
snapshot read still happens, the degraded-cycle reconciliation notice is
logged, and the cycle ends with the sleep step (a sleep for the remaining
time when under the interval, the overrun warning otherwise). -/
theorem C7_meter_failure_cycle_continues (em : String)
    (dec : String → Except String EMS.P1Data)
    (zone : EMS.CivilDateTime → Option ℤ) (now : ℤ)
    (battery : EMS.BatterySnapshot) (elapsed interval : ℕ) :
    EMS.cycle (.error em) dec zone now battery elapsed interval
      = some (EMS.run_cycle none battery elapsed interval)
    ∧ (∀ j d, dec j = .error d →
        EMS.cycle (.ok j) dec zone now battery elapsed interval
          = some (EMS.run_cycle none battery elapsed interval))
    ∧ EMS.CycleAction.fetchBattery ∈ EMS.run_cycle none battery elapsed interval
    ∧ EMS.CycleAction.degradedLog ∈ EMS.run_cycle none battery elapsed interval
    ∧ (elapsed < interval →
        (EMS.run_cycle none battery elapsed interval).getLast?
          = some (EMS.CycleAction.sleepFor (interval - elapsed)))
    ∧ (interval ≤ elapsed →
        (EMS.run_cycle none battery elapsed interval).getLast?
          = some (EMS.CycleAction.logMsg .warn)) := by
  refine ⟨rfl, fun j d h => ?_, ?_, ?_, fun h => ?_, fun h => ?_⟩
  · simp [EMS.cycle, EMS.read_p1, h]
  · cases hs : EMS.sleep_step elapsed interval <;> simp [EMS.run_cycle, hs]
  · cases hs : EMS.sleep_step elapsed interval <;> simp [EMS.run_cycle, hs]
  · have hs : EMS.sleep_step elapsed interval = .sleepFor (interval - elapsed) := by
      simp [EMS.sleep_step, h]
    simp [EMS.run_cycle, hs]
  · have hs : EMS.sleep_step elapsed interval = .skipOverrun := by
      simp [EMS.sleep_step, Nat.not_lt.mpr h]
    simp [EMS.run_cycle, hs]

/-- C7 witness: the theorem applied at a concrete transport failure, a
concrete always-failing decoder, a concrete zone and clock, a concrete
battery snapshot, and both sleep outcomes (elapsed 5 of 30 sleeps 25;
elapsed 35 of 30 ends with the overrun warning). -/
theorem C7_meter_failure_cycle_continues_witness :
    EMS.cycle (.error "connection refused") (fun _ => .error "bad json")
        (fun _ => some 0) 0
        (EMS.read_battery_snapshot (fun _ => none) (fun _ => none) (fun _ => none) "PF")
        5 30
      = some (EMS.run_cycle none
          (EMS.read_battery_snapshot (fun _ => none) (fun _ => none) (fun _ => none) "PF")
          5 30)
    ∧ (EMS.run_cycle none
          (EMS.read_battery_snapshot (fun _ => none) (fun _ => none) (fun _ => none) "PF")
          5 30).getLast? = some (EMS.CycleAction.sleepFor 25)
    ∧ (EMS.run_cycle none
          (EMS.read_battery_snapshot (fun _ => none) (fun _ => none) (fun _ => none) "PF")
          35 30).getLast? = some (EMS.CycleAction.logMsg .warn) :=
  ⟨(C7_meter_failure_cycle_continues "connection refused" (fun _ => .error "bad json")
      (fun _ => some 0) 0 _ 5 30).1,
   by
    have h := (C7_meter_failure_cycle_continues "connection refused"
      (fun _ => .error "bad json") (fun _ => some 0) 0
      (EMS.read_battery_snapshot (fun _ => none) (fun _ => none) (fun _ => none) "PF")
      5 30).2.2.2.2.1 (by decide)
    simpa using h,
   by
    have h := (C7_meter_failure_cycle_continues "connection refused"
      (fun _ => .error "bad json") (fun _ => some 0) 0
      (EMS.read_battery_snapshot (fun _ => none) (fun _ => none) (fun _ => none) "PF")
      35 30).2.2.2.2.2 (by decide)
    simpa using h⟩
